import Mathlib

/-!
# QuickCart persistence and domain-model layer: a shallow embedding

This file embeds the domain entities (`User`, `Product`, `OrderItem`,
`Order`), their dict serialization (`to_dict` / `from_dict`), the
`DataManager` document store, and the order-placement / order-lifecycle
operations of `QuickCart.py`, and proves the spec's claims about them.

Modelling conventions:
* Python dicts with a known schema become structures with `Option` fields
  (`none` models an absent key); the three store collections become
  insertion-ordered association lists, with Python's `d[k] = v` modelled
  by `upsert` (replace in place, else append).
* Python numbers: `price`/amounts are `ℚ`, `stock`/`quantity` are `ℤ`
  (Python ints are unbounded, and the code can drive stock negative).
* `datetime` values are `ℕ` ticks; `isoformat` renders them as a decimal
  digit string and `fromisoformat` parses that textual form back.
* Raising Python code (`KeyError`, `ValueError`, attribute access on
  `None`) returns `Except PyError`.
-/

namespace QuickCart

/-- Embeds `UserRole` enum: the `.value` string of each variant is given by
`roleValue`. -/
inductive UserRole where
  | ADMIN
  | USER
  | RIDER
deriving DecidableEq, Repr

/-- Embeds `UserRole.value`: the string payload of each role variant. -/
def roleValue : UserRole → String
  | .ADMIN => "admin"
  | .USER => "user"
  | .RIDER => "rider"

/-- Embeds `OrderStatus` enum. -/
inductive OrderStatus where
  | PENDING
  | ASSIGNED
  | IN_PROGRESS
  | DELIVERED
  | CANCELLED
deriving DecidableEq, Repr

/-- Embeds `OrderStatus.value`: the string payload of each status variant. -/
def statusValue : OrderStatus → String
  | .PENDING => "pending"
  | .ASSIGNED => "assigned"
  | .IN_PROGRESS => "in_progress"
  | .DELIVERED => "delivered"
  | .CANCELLED => "cancelled"

/-- Errors raised by the Python code during deserialization and store
access: `KeyError` on a missing dict key, `ValueError` on an enum
constructor call with an unrecognized tag or on `fromisoformat` of a
malformed string, and `AttributeError` on attribute access on `None`. -/
inductive PyError where
  | keyError (k : String)
  | valueError (v : String)
  | attrErrorOnNone
deriving DecidableEq, Repr

/-- Embeds `UserRole(tag)`: enum lookup by value; raises `ValueError` on an
unrecognized tag. -/
def parseRole (t : String) : Except PyError UserRole :=
  if t = "admin" then .ok .ADMIN
  else if t = "user" then .ok .USER
  else if t = "rider" then .ok .RIDER
  else .error (.valueError t)

/-- Embeds `OrderStatus(tag)`: enum lookup by value; raises `ValueError` on an
unrecognized tag. -/
def parseStatus (t : String) : Except PyError OrderStatus :=
  if t = "pending" then .ok .PENDING
  else if t = "assigned" then .ok .ASSIGNED
  else if t = "in_progress" then .ok .IN_PROGRESS
  else if t = "delivered" then .ok .DELIVERED
  else if t = "cancelled" then .ok .CANCELLED
  else .error (.valueError t)

/-! ## Timestamps

`datetime` values are modelled as `ℕ` ticks. `isoformat` produces the
sortable textual form — modelled as the decimal digit string of the tick
count — and `datetime.fromisoformat` parses exactly those strings back. -/

/-- The character for one decimal digit. -/
def digitChar (d : ℕ) : Char := Char.ofNat (48 + d)

/-- The numeric value of one decimal digit character. -/
def charDigit (c : Char) : ℕ := c.toNat - 48

/-- Embeds `datetime.isoformat`: the textual (decimal, sortable) form of a
timestamp. -/
def isoformat (t : ℕ) : String :=
  if t = 0 then "0" else ⟨((Nat.digits 10 t).map digitChar).reverse⟩

/-- Is `c` a decimal digit character? -/
def isDigitChar (c : Char) : Bool := 48 ≤ c.toNat && c.toNat ≤ 57

/-- Embeds `datetime.fromisoformat`: parses the textual timestamp form, raising
`ValueError` (modelled as `none`) on anything else. -/
def parseTimestamp (s : String) : Option ℕ :=
  if s.data ≠ [] ∧ s.data.all isDigitChar then
    some (Nat.ofDigits 10 (s.data.reverse.map charDigit))
  else none

/-- Embeds `datetime.fromisoformat` as a raising operation. -/
def fromisoformat (s : String) : Except PyError ℕ :=
  match parseTimestamp s with
  | some t => .ok t
  | none => .error (.valueError s)

/-- Embeds `data[k]` on an optional field: the value if the key is present,
`KeyError` otherwise. -/
def req {α : Type} (v : Option α) (k : String) : Except PyError α :=
  match v with
  | some x => .ok x
  | none => .error (.keyError k)

/-! ## Entities and their records -/

/-- The `User` class: `username`, `password`, `role`, `name`,
`created_at`. -/
structure User where
  username : String
  password : String
  role : UserRole
  name : String
  created_at : ℕ
deriving DecidableEq, Repr

/-- The dict produced/consumed by `User.to_dict` / `User.from_dict`;
`none` models an absent key. -/
structure UserRecord where
  username : Option String
  password : Option String
  role : Option String
  name : Option String
  created_at : Option String
deriving DecidableEq, Repr

/-- Embeds `User.__init__`: `name or username` defaults an empty name to the
username; `created_at` is the current time. -/
def User.create (username password : String) (role : UserRole)
    (name : String) (now : ℕ) : User :=
  ⟨username, password, role, if name = "" then username else name, now⟩

/-- Embeds `User.to_dict`. -/
def User.to_dict (u : User) : UserRecord :=
  ⟨some u.username, some u.password, some (roleValue u.role),
    some u.name, some (isoformat u.created_at)⟩

/-- Embeds `User.from_dict`: constructs via `__init__` from the required keys,
then overwrites `created_at` with the parsed timestamp. -/
def User.from_dict (d : UserRecord) : Except PyError User := do
  let username ← req d.username "username"
  let password ← req d.password "password"
  let roleTag ← req d.role "role"
  let role ← parseRole roleTag
  let name ← req d.name "name"
  let caStr ← req d.created_at "created_at"
  let ca ← fromisoformat caStr
  .ok { User.create username password role name 0 with created_at := ca }

/-- The `Product` class. -/
structure Product where
  product_id : String
  name : String
  price : ℚ
  stock : ℤ
  category : String
deriving DecidableEq, Repr

/-- The dict produced/consumed by `Product.to_dict` /
`Product.from_dict`. -/
structure ProductRecord where
  product_id : Option String
  name : Option String
  price : Option ℚ
  stock : Option ℤ
  category : Option String
deriving DecidableEq, Repr

/-- Embeds `Product.to_dict`. -/
def Product.to_dict (p : Product) : ProductRecord :=
  ⟨some p.product_id, some p.name, some p.price, some p.stock,
    some p.category⟩

/-- Embeds `Product.from_dict`. -/
def Product.from_dict (d : ProductRecord) : Except PyError Product := do
  let pid ← req d.product_id "product_id"
  let name ← req d.name "name"
  let price ← req d.price "price"
  let stock ← req d.stock "stock"
  let category ← req d.category "category"
  .ok ⟨pid, name, price, stock, category⟩

/-- The `OrderItem` class; `subtotal` is computed at construction. -/
structure OrderItem where
  product_id : String
  product_name : String
  price : ℚ
  quantity : ℤ
  subtotal : ℚ
deriving DecidableEq, Repr

/-- Embeds `OrderItem.__init__`: `subtotal = price * quantity`. -/
def OrderItem.create (pid pname : String) (price : ℚ) (qty : ℤ) :
    OrderItem :=
  ⟨pid, pname, price, qty, price * (qty : ℚ)⟩

/-- The dict produced/consumed by `OrderItem.to_dict` /
`OrderItem.from_dict`. -/
structure OrderItemRecord where
  product_id : Option String
  product_name : Option String
  price : Option ℚ
  quantity : Option ℤ
  subtotal : Option ℚ
deriving DecidableEq, Repr

/-- Embeds `OrderItem.to_dict`. -/
def OrderItem.to_dict (it : OrderItem) : OrderItemRecord :=
  ⟨some it.product_id, some it.product_name, some it.price,
    some it.quantity, some it.subtotal⟩

/-- Embeds `OrderItem.from_dict`: rebuilds via `__init__` (so `subtotal` is
recomputed, the serialized `subtotal` key being ignored). -/
def OrderItem.from_dict (d : OrderItemRecord) : Except PyError OrderItem := do
  let pid ← req d.product_id "product_id"
  let pname ← req d.product_name "product_name"
  let price ← req d.price "price"
  let qty ← req d.quantity "quantity"
  .ok (OrderItem.create pid pname price qty)

/-- The `Order` class. -/
structure Order where
  order_id : String
  customer_username : String
  items : List OrderItem
  delivery_address : String
  total_amount : ℚ
  status : OrderStatus
  rider_username : Option String
  created_at : ℕ
  updated_at : ℕ
deriving DecidableEq, Repr

/-- Embeds `Order.__init__`: `total_amount` is the sum of the items' subtotals,
status starts `PENDING`, no rider; `created_at` and `updated_at` are two
`datetime.now()` calls. -/
def Order.create (oid cust : String) (items : List OrderItem)
    (addr : String) (t1 t2 : ℕ) : Order :=
  ⟨oid, cust, items, addr, (items.map OrderItem.subtotal).sum,
    .PENDING, none, t1, t2⟩

/-- Embeds `Order.assign_rider`: sets the rider, moves status to `ASSIGNED`,
bumps `updated_at`. -/
def Order.assign_rider (o : Order) (rider : String) (now : ℕ) : Order :=
  { o with rider_username := some rider, status := .ASSIGNED,
           updated_at := now }

/-- Embeds `Order.update_status`: unconditionally overwrites status and bumps
`updated_at`. -/
def Order.update_status (o : Order) (newStatus : OrderStatus) (now : ℕ) :
    Order :=
  { o with status := newStatus, updated_at := now }

/-- The dict produced/consumed by `Order.to_dict` / `Order.from_dict`.
`rider_username` is read with `.get`, so an absent key and a `null` value
are both `none`. -/
structure OrderRecord where
  order_id : Option String
  customer_username : Option String
  items : Option (List OrderItemRecord)
  delivery_address : Option String
  total_amount : Option ℚ
  status : Option String
  rider_username : Option String
  created_at : Option String
  updated_at : Option String
deriving DecidableEq, Repr

/-- Embeds `Order.to_dict`. -/
def Order.to_dict (o : Order) : OrderRecord :=
  ⟨some o.order_id, some o.customer_username,
    some (o.items.map OrderItem.to_dict), some o.delivery_address,
    some o.total_amount, some (statusValue o.status), o.rider_username,
    some (isoformat o.created_at), some (isoformat o.updated_at)⟩

/-- Embeds `Order.from_dict`: deserializes each item record independently,
constructs via `__init__`, then overwrites `total_amount`, `status`,
`rider_username` (via `.get`, accepting absence), `created_at` and
`updated_at` from the record. -/
def Order.from_dict (d : OrderRecord) : Except PyError Order := do
  let itemRecs ← req d.items "items"
  let items ← itemRecs.mapM OrderItem.from_dict
  let oid ← req d.order_id "order_id"
  let cust ← req d.customer_username "customer_username"
  let addr ← req d.delivery_address "delivery_address"
  let ta ← req d.total_amount "total_amount"
  let statusTag ← req d.status "status"
  let status ← parseStatus statusTag
  let caStr ← req d.created_at "created_at"
  let ca ← fromisoformat caStr
  let uaStr ← req d.updated_at "updated_at"
  let ua ← fromisoformat uaStr
  .ok { Order.create oid cust items addr 0 0 with
          total_amount := ta, status := status,
          rider_username := d.rider_username, created_at := ca,
          updated_at := ua }

/-! ## The document store (`DataManager`)

The three collections are insertion-ordered association lists keyed by
string; Python's `d[k] = v` is `upsert` (replace in place if the key
exists, else append) and `d.get(k)` / `k in d` are `alookup` /
`containsKey`. Disk persistence (`save_data`) is write-only and its
failures are swallowed, so it does not affect the in-memory store. -/

/-- Embeds `d.get(k)` on an insertion-ordered dict. -/
def alookup {α : Type} : List (String × α) → String → Option α
  | [], _ => none
  | (k', v) :: rest, k => if k' = k then some v else alookup rest k

/-- Embeds `k in d` on an insertion-ordered dict. -/
def containsKey {α : Type} (l : List (String × α)) (k : String) : Bool :=
  (alookup l k).isSome

/-- Embeds `d[k] = v` on an insertion-ordered dict: replacing an existing key
keeps its position, a new key is appended. -/
def upsert {α : Type} : List (String × α) → String → α → List (String × α)
  | [], k, v => [(k, v)]
  | (k', v') :: rest, k, v =>
      if k' = k then (k, v) :: rest else (k', v') :: upsert rest k v

/-- Embeds `self.data["products"][pid]["stock"] = n`: in-place mutation of the
`stock` key of the record stored under `pid`, leaving its position and
every other key alone. -/
def setStock : List (String × ProductRecord) → String → ℤ →
    List (String × ProductRecord)
  | [], _, _ => []
  | (k', r) :: rest, k, n =>
      if k' = k then (k', { r with stock := some n }) :: rest
      else (k', r) :: setStock rest k n

/-- The in-memory document: three named collections. -/
structure Store where
  users : List (String × UserRecord)
  products : List (String × ProductRecord)
  orders : List (String × OrderRecord)
deriving DecidableEq, Repr

/-- The three empty collections. -/
def emptyStore : Store := ⟨[], [], []⟩

/-- A parsed JSON value, as `json.load` returns it. `_load_data` does
not inspect the value's structure, so any of these — an array, a bare
string, an object with arbitrary keys — can become `self.data`, not
only a three-collection document. -/
inductive JValue where
  | null
  | bool (b : Bool)
  | num (q : ℚ)
  | str (s : String)
  | arr (elems : List JValue)
  | obj (fields : List (String × JValue))

/-- Embeds the fallback literal `{"users": {}, "products": {},
"orders": {}}` of `_load_data`. -/
def emptyDoc : JValue :=
  .obj [("users", .obj []), ("products", .obj []), ("orders", .obj [])]

/-- The state of the backing file at startup, as `_load_data` observes
it: absent; present with content `json.load` rejects
(`json.JSONDecodeError`); or present with content parsing to the JSON
value `v`, which need not be a three-collection document. -/
inductive FileState where
  | missing
  | unparseable
  | parsed (v : JValue)

/-- Embeds `DataManager._load_data`: the parsed JSON value as-is,
whatever its structure, when the file exists and its content parses;
the empty three-collection document only when the file is missing or
`json.load` raises (`json.JSONDecodeError` / `FileNotFoundError` are the
only exceptions caught and passed over). -/
def loadData : FileState → JValue
  | .missing => emptyDoc
  | .unparseable => emptyDoc
  | .parsed v => v

/-- Embeds `DataManager.add_user`. -/
def addUser (s : Store) (u : User) : Store :=
  { s with users := upsert s.users u.username u.to_dict }

/-- Embeds `DataManager.get_user`: `None` on an absent key, else deserialized
(which can raise on a malformed record). -/
def getUser (s : Store) (username : String) :
    Except PyError (Option User) :=
  match alookup s.users username with
  | none => .ok none
  | some d => (User.from_dict d).map some

/-- Embeds `DataManager.add_product`. -/
def addProduct (s : Store) (p : Product) : Store :=
  { s with products := upsert s.products p.product_id p.to_dict }

/-- Embeds `DataManager.get_product`. -/
def getProduct (s : Store) (pid : String) :
    Except PyError (Option Product) :=
  match alookup s.products pid with
  | none => .ok none
  | some d => (Product.from_dict d).map some

/-- Embeds `DataManager.update_product_stock`: guarded by `pid in products`;
a no-op on an absent id, else overwrites only the `stock` key. -/
def updateProductStock (s : Store) (pid : String) (newStock : ℤ) : Store :=
  if containsKey s.products pid then
    { s with products := setStock s.products pid newStock }
  else s

/-- Embeds `DataManager.add_order`. -/
def addOrder (s : Store) (o : Order) : Store :=
  { s with orders := upsert s.orders o.order_id o.to_dict }

/-- Embeds `DataManager.update_order`: textually the same upsert as
`add_order`. -/
def updateOrder (s : Store) (o : Order) : Store :=
  { s with orders := upsert s.orders o.order_id o.to_dict }

/-- Embeds `DataManager.get_order`. -/
def getOrder (s : Store) (oid : String) : Except PyError (Option Order) :=
  match alookup s.orders oid with
  | none => .ok none
  | some d => (Order.from_dict d).map some

/-- Embeds `DataManager.get_all_orders`: deserializes every record, in the
collection's insertion order. -/
def getAllOrders (s : Store) : Except PyError (List Order) :=
  (s.orders.map Prod.snd).mapM Order.from_dict

/-- The comprehension body of `get_pending_orders`: for each record in
order, evaluate `data["status"] == OrderStatus.PENDING.value` (a
`KeyError` if the key is absent) and deserialize the records that
pass. -/
def pendingOrdersAux : List OrderRecord → Except PyError (List Order)
  | [] => .ok []
  | d :: ds =>
    match d.status with
    | none => .error (.keyError "status")
    | some t =>
      if t = statusValue .PENDING then do
        let o ← Order.from_dict d
        let rest ← pendingOrdersAux ds
        .ok (o :: rest)
      else pendingOrdersAux ds

/-- Embeds `DataManager.get_pending_orders`. -/
def getPendingOrders (s : Store) : Except PyError (List Order) :=
  pendingOrdersAux (s.orders.map Prod.snd)

/-! ## Application-layer order placement and lifecycle
(`QuickCartApp._place_order`, `_accept_order`, `_update_order_status`) -/

/-- One accepted-or-rejected iteration of the cart-building loop of
`_place_order`: look the product up; skip (leaving the cart unchanged)
when it is absent, out of stock, or the quantity is non-positive or
exceeds the product's current stock; otherwise append a line item built
from the product's stored id, name and price. -/
def cartAdd (s : Store) (cart : List OrderItem) (pid : String)
    (qty : ℤ) : Except PyError (List OrderItem) := do
  let p? ← getProduct s pid
  match p? with
  | none => .ok cart
  | some p =>
    if p.stock ≤ 0 then .ok cart
    else if qty ≤ 0 ∨ p.stock < qty then .ok cart
    else .ok (cart ++ [OrderItem.create p.product_id p.name p.price qty])

/-- The stock-update loop of `_place_order`: for each cart item in
order, re-fetch the product from the store and write back
`product.stock - item.quantity` (an `AttributeError` if the product is
gone). -/
def placeOrderStockLoop (s : Store) :
    List OrderItem → Except PyError Store
  | [] => .ok s
  | item :: rest => do
    let p? ← getProduct s item.product_id
    match p? with
    | none => .error .attrErrorOnNone
    | some p =>
      placeOrderStockLoop
        (updateProductStock s item.product_id (p.stock - item.quantity))
        rest

/-- The commit phase of `_place_order` after the cart is built and
confirmed: an empty cart returns with the store untouched; otherwise the
order is constructed, the stock-update loop runs, and the order is
added. -/
def placeOrder (s : Store) (cart : List OrderItem)
    (oid cust addr : String) (t1 t2 : ℕ) : Except PyError Store :=
  if cart = [] then .ok s
  else do
    let order := Order.create oid cust cart addr t1 t2
    let s' ← placeOrderStockLoop s cart
    .ok (addOrder s' order)

/-- One order-lifecycle operation as the application actually invokes
it: `_accept_order` calls `assign_rider` only after checking
`status == PENDING`, and `_update_order_status` offers
`IN_PROGRESS` only from `ASSIGNED` and `DELIVERED` / `CANCELLED` only
from `IN_PROGRESS`. -/
inductive AppStep : Order → Order → Prop
  | accept (o : Order) (rider : String) (now : ℕ)
      (h : o.status = .PENDING) : AppStep o (o.assign_rider rider now)
  | startDelivery (o : Order) (now : ℕ)
      (h : o.status = .ASSIGNED) :
      AppStep o (o.update_status .IN_PROGRESS now)
  | deliver (o : Order) (now : ℕ)
      (h : o.status = .IN_PROGRESS) :
      AppStep o (o.update_status .DELIVERED now)
  | cancel (o : Order) (now : ℕ)
      (h : o.status = .IN_PROGRESS) :
      AppStep o (o.update_status .CANCELLED now)

/-- Orders reachable from a given order through the application's
lifecycle operations. -/
def AppReachable : Order → Order → Prop := Relation.ReflTransGen AppStep

/-! ## Helper lemmas -/

instance {ε α : Type} [DecidableEq ε] [DecidableEq α] :
    DecidableEq (Except ε α) := fun a b =>
  match a, b with
  | .ok x, .ok y =>
    if h : x = y then .isTrue (by rw [h]) else .isFalse (by simp [h])
  | .ok _, .error _ => .isFalse (by simp)
  | .error _, .ok _ => .isFalse (by simp)
  | .error e, .error e' =>
    if h : e = e' then .isTrue (by rw [h]) else .isFalse (by simp [h])

theorem okBind {ε α β : Type} (a : α) (f : α → Except ε β) :
    (Except.ok a >>= f) = f a := rfl

theorem errorBind {ε α β : Type} (e : ε) (f : α → Except ε β) :
    ((Except.error e : Except ε α) >>= f) = .error e := rfl

theorem charDigit_digitChar {d : ℕ} (hd : d < 10) :
    charDigit (digitChar d) = d := by
  interval_cases d <;> decide

theorem isDigitChar_digitChar {d : ℕ} (hd : d < 10) :
    isDigitChar (digitChar d) = true := by
  interval_cases d <;> decide

/-- Round trip of the textual timestamp form: parsing the rendered form
of any tick count gives it back. -/
theorem parseTimestamp_isoformat (t : ℕ) :
    parseTimestamp (isoformat t) = some t := by
  by_cases h0 : t = 0
  · subst h0; decide
  · have hne : Nat.digits 10 t ≠ [] := Nat.digits_ne_nil_iff_ne_zero.mpr h0
    have hdig : ∀ d ∈ Nat.digits 10 t, d < 10 := fun d hd =>
      Nat.digits_lt_base (by norm_num) hd
    rw [isoformat, if_neg h0, parseTimestamp]
    rw [if_pos]
    · have hmap : (((Nat.digits 10 t).map digitChar).reverse).reverse.map
          charDigit = Nat.digits 10 t := by
        rw [List.reverse_reverse, List.map_map]
        calc (Nat.digits 10 t).map (charDigit ∘ digitChar)
            = (Nat.digits 10 t).map id := by
              apply List.map_congr_left
              intro d hd
              exact charDigit_digitChar (hdig d hd)
          _ = Nat.digits 10 t := List.map_id _
      simp only [String.data]
      rw [hmap, Nat.ofDigits_digits]
    · constructor
      · simp only [String.data, ne_eq, List.reverse_eq_nil_iff,
          List.map_eq_nil_iff]
        exact hne
      · simp only [String.data, List.all_eq_true]
        intro c hc
        rw [List.mem_reverse, List.mem_map] at hc
        obtain ⟨d, hd, rfl⟩ := hc
        exact isDigitChar_digitChar (hdig d hd)

theorem parseRole_roleValue (r : UserRole) :
    parseRole (roleValue r) = .ok r := by
  cases r <;> decide

theorem parseStatus_statusValue (st : OrderStatus) :
    parseStatus (statusValue st) = .ok st := by
  cases st <;> decide

theorem parseRole_eq_ok {t : String} {r : UserRole}
    (h : parseRole t = .ok r) : t = roleValue r := by
  rw [parseRole] at h
  split_ifs at h with h1 h2 h3
  · cases h; exact h1
  · cases h; exact h2
  · cases h; exact h3

theorem parseStatus_eq_ok {t : String} {st : OrderStatus}
    (h : parseStatus t = .ok st) : t = statusValue st := by
  rw [parseStatus] at h
  split_ifs at h with h1 h2 h3 h4 h5
  · cases h; exact h1
  · cases h; exact h2
  · cases h; exact h3
  · cases h; exact h4
  · cases h; exact h5

theorem statusValue_eq_pending_iff {st : OrderStatus} :
    statusValue st = "pending" ↔ st = .PENDING := by
  cases st <;> decide

theorem pureOk {ε α : Type} (a : α) : (pure a : Except ε α) = .ok a := rfl

theorem fromisoformat_isoformat (t : ℕ) :
    fromisoformat (isoformat t) = .ok t := by
  rw [fromisoformat, parseTimestamp_isoformat]

theorem bind_ok_inv {ε α β : Type} {m : Except ε α} {f : α → Except ε β}
    {b : β} (h : m >>= f = .ok b) : ∃ a, m = .ok a ∧ f a = .ok b := by
  cases m with
  | ok a => exact ⟨a, rfl, h⟩
  | error e => rw [errorBind] at h; cases h

theorem req_ok_inv {α : Type} {v : Option α} {k : String} {a : α}
    (h : req v k = .ok a) : v = some a := by
  cases v <;> simp_all [req]

/-! ## Round-trip lemmas -/

theorem user_from_dict_to_dict (u : User)
    (h : u.name = "" → u.username = "") :
    User.from_dict u.to_dict = .ok u := by
  obtain ⟨un, pw, r, nm, ca⟩ := u
  simp only at h
  simp only [User.to_dict, User.from_dict, req, okBind, parseRole_roleValue,
    fromisoformat_isoformat, User.create]
  by_cases hnm : nm = ""
  · simp [hnm, h hnm]
  · simp [hnm]

theorem product_from_dict_to_dict (p : Product) :
    Product.from_dict p.to_dict = .ok p := by
  obtain ⟨pid, nm, pr, st, cat⟩ := p
  rfl

theorem item_from_dict_to_dict (it : OrderItem)
    (h : it.subtotal = it.price * (it.quantity : ℚ)) :
    OrderItem.from_dict it.to_dict = .ok it := by
  obtain ⟨pid, pname, price, qty, sub⟩ := it
  simp only at h
  subst h
  rfl

theorem mapM_from_dict_to_dict (items : List OrderItem)
    (h : ∀ it ∈ items, it.subtotal = it.price * (it.quantity : ℚ)) :
    (items.map OrderItem.to_dict).mapM OrderItem.from_dict = .ok items := by
  induction items with
  | nil => rfl
  | cons it rest ih =>
    rw [List.map_cons, List.mapM_cons,
      item_from_dict_to_dict it (h it (by simp)), okBind,
      ih (fun x hx => h x (by simp [hx])), okBind, pureOk]

theorem order_from_dict_to_dict (o : Order)
    (h : ∀ it ∈ o.items, it.subtotal = it.price * (it.quantity : ℚ)) :
    Order.from_dict o.to_dict = .ok o := by
  obtain ⟨oid, cust, items, addr, ta, st, rider, ca, ua⟩ := o
  simp only at h
  simp only [Order.to_dict, Order.from_dict, req, okBind,
    mapM_from_dict_to_dict items h, parseStatus_statusValue,
    fromisoformat_isoformat, Order.create]

/-! ## Inversion lemmas: what a successful deserialization implies -/

theorem user_from_dict_ok_inv {d : UserRecord} {u : User}
    (h : User.from_dict d = .ok u) :
    d.username = some u.username ∧ d.password = some u.password ∧
    d.role = some (roleValue u.role) ∧ d.name.isSome ∧
    d.created_at.isSome := by
  rw [User.from_dict] at h
  obtain ⟨un, h1, h⟩ := bind_ok_inv h
  obtain ⟨pw, h2, h⟩ := bind_ok_inv h
  obtain ⟨rt, h3, h⟩ := bind_ok_inv h
  obtain ⟨r, h4, h⟩ := bind_ok_inv h
  obtain ⟨nm, h5, h⟩ := bind_ok_inv h
  obtain ⟨cs, h6, h⟩ := bind_ok_inv h
  obtain ⟨ca, h7, h⟩ := bind_ok_inv h
  cases h
  refine ⟨?_, ?_, ?_, ?_, ?_⟩ <;>
    simp [req_ok_inv h1, req_ok_inv h2, req_ok_inv h3, req_ok_inv h5,
      req_ok_inv h6, parseRole_eq_ok h4, User.create]

theorem product_from_dict_ok_inv {d : ProductRecord} {p : Product}
    (h : Product.from_dict d = .ok p) :
    d.product_id = some p.product_id ∧ d.name = some p.name ∧
    d.price = some p.price ∧ d.stock = some p.stock ∧
    d.category = some p.category := by
  rw [Product.from_dict] at h
  obtain ⟨pid, h1, h⟩ := bind_ok_inv h
  obtain ⟨nm, h2, h⟩ := bind_ok_inv h
  obtain ⟨pr, h3, h⟩ := bind_ok_inv h
  obtain ⟨st, h4, h⟩ := bind_ok_inv h
  obtain ⟨cat, h5, h⟩ := bind_ok_inv h
  cases h
  exact ⟨req_ok_inv h1, req_ok_inv h2, req_ok_inv h3, req_ok_inv h4,
    req_ok_inv h5⟩

theorem item_from_dict_ok_inv {d : OrderItemRecord} {it : OrderItem}
    (h : OrderItem.from_dict d = .ok it) :
    d.product_id = some it.product_id ∧
    d.product_name = some it.product_name ∧ d.price = some it.price ∧
    d.quantity = some it.quantity := by
  rw [OrderItem.from_dict] at h
  obtain ⟨pid, h1, h⟩ := bind_ok_inv h
  obtain ⟨pname, h2, h⟩ := bind_ok_inv h
  obtain ⟨price, h3, h⟩ := bind_ok_inv h
  obtain ⟨qty, h4, h⟩ := bind_ok_inv h
  cases h
  exact ⟨req_ok_inv h1, req_ok_inv h2, req_ok_inv h3, req_ok_inv h4⟩

theorem order_from_dict_ok_inv {d : OrderRecord} {o : Order}
    (h : Order.from_dict d = .ok o) :
    d.order_id = some o.order_id ∧
    d.customer_username = some o.customer_username ∧
    (∃ rs, d.items = some rs ∧ rs.mapM OrderItem.from_dict = .ok o.items) ∧
    d.delivery_address = some o.delivery_address ∧
    d.total_amount = some o.total_amount ∧
    d.status = some (statusValue o.status) ∧
    d.rider_username = o.rider_username ∧
    d.created_at.isSome ∧ d.updated_at.isSome := by
  rw [Order.from_dict] at h
  obtain ⟨recs, h1, h⟩ := bind_ok_inv h
  obtain ⟨items, h2, h⟩ := bind_ok_inv h
  obtain ⟨oid, h3, h⟩ := bind_ok_inv h
  obtain ⟨cust, h4, h⟩ := bind_ok_inv h
  obtain ⟨addr, h5, h⟩ := bind_ok_inv h
  obtain ⟨ta, h6, h⟩ := bind_ok_inv h
  obtain ⟨stTag, h7, h⟩ := bind_ok_inv h
  obtain ⟨st, h8, h⟩ := bind_ok_inv h
  obtain ⟨cs, h9, h⟩ := bind_ok_inv h
  obtain ⟨ca, h10, h⟩ := bind_ok_inv h
  obtain ⟨us, h11, h⟩ := bind_ok_inv h
  obtain ⟨ua, h12, h⟩ := bind_ok_inv h
  cases h
  refine ⟨?_, ?_, ⟨recs, req_ok_inv h1, ?_⟩, ?_, ?_, ?_, ?_, ?_, ?_⟩
  case refine_3 => simpa [Order.create] using h2
  all_goals
    simp [req_ok_inv h3, req_ok_inv h4, req_ok_inv h5, req_ok_inv h6,
      req_ok_inv h7, req_ok_inv h9, req_ok_inv h11, parseStatus_eq_ok h8,
      Order.create]

/-! ## Association-list lemmas for the store collections -/

theorem alookup_upsert_self {α : Type} (l : List (String × α))
    (k : String) (v : α) : alookup (upsert l k v) k = some v := by
  induction l with
  | nil => simp [upsert, alookup]
  | cons kv rest ih =>
    obtain ⟨k', v'⟩ := kv
    by_cases h : k' = k <;> simp [upsert, alookup, h, ih]

theorem alookup_upsert_ne {α : Type} (l : List (String × α))
    (k k' : String) (v : α) (h : k' ≠ k) :
    alookup (upsert l k v) k' = alookup l k' := by
  have hk : k ≠ k' := Ne.symm h
  induction l with
  | nil => simp [upsert, alookup, hk]
  | cons kv rest ih =>
    obtain ⟨k'', v''⟩ := kv
    by_cases h2 : k'' = k
    · subst h2
      simp [upsert, alookup, hk]
    · simp [upsert, alookup, h2, ih]

theorem alookup_setStock_self (l : List (String × ProductRecord))
    (k : String) (n : ℤ) {r : ProductRecord} (h : alookup l k = some r) :
    alookup (setStock l k n) k = some { r with stock := some n } := by
  induction l with
  | nil => simp [alookup] at h
  | cons kv rest ih =>
    obtain ⟨k', v'⟩ := kv
    by_cases h2 : k' = k
    · subst h2
      simp only [alookup, if_pos rfl] at h
      cases h
      simp [setStock, alookup]
    · simp only [alookup, if_neg h2] at h
      simp [setStock, alookup, h2, ih h]

theorem alookup_setStock_ne (l : List (String × ProductRecord))
    (k k' : String) (n : ℤ) (h : k' ≠ k) :
    alookup (setStock l k n) k' = alookup l k' := by
  have hk : k ≠ k' := Ne.symm h
  induction l with
  | nil => simp [setStock]
  | cons kv rest ih =>
    obtain ⟨k'', v''⟩ := kv
    by_cases h2 : k'' = k
    · subst h2
      simp [setStock, alookup, hk, ih]
    · simp [setStock, alookup, h2, ih]

/-! ## The pending-orders query versus the full scan -/

theorem pendingOrdersAux_eq {ds : List OrderRecord} {l : List Order}
    (h : ds.mapM Order.from_dict = .ok l) :
    pendingOrdersAux ds =
      .ok (l.filter fun o => decide (o.status = .PENDING)) := by
  induction ds generalizing l with
  | nil =>
    rw [List.mapM_nil, pureOk] at h
    cases h
    rfl
  | cons d ds ih =>
    rw [List.mapM_cons] at h
    obtain ⟨o, ho, h2⟩ := bind_ok_inv h
    obtain ⟨rest, hrest, h3⟩ := bind_ok_inv h2
    rw [pureOk] at h3
    cases h3
    have hst : d.status = some (statusValue o.status) :=
      (order_from_dict_ok_inv ho).2.2.2.2.2.1
    by_cases hp : o.status = .PENDING
    · simp only [pendingOrdersAux, hst, hp, if_true, eq_self_iff_true,
        ho, okBind, ih hrest]
      simp [List.filter_cons, hp]
    · have hne : ¬(statusValue o.status = statusValue OrderStatus.PENDING) :=
        fun hh => hp (statusValue_eq_pending_iff.mp hh)
      simp only [pendingOrdersAux, hst, hne, if_false, ih hrest]
      simp [List.filter_cons, hp]

/-! ## The lifecycle invariant under the application's guarded steps -/

theorem appStep_preserves_inv {o o' : Order} (hstep : AppStep o o')
    (hinv : o.rider_username = none ↔ o.status = .PENDING) :
    o'.rider_username = none ↔ o'.status = .PENDING := by
  cases hstep with
  | accept rider now h =>
    simp [Order.assign_rider]
  | startDelivery now h =>
    have hr : o.rider_username ≠ none := fun hn => by
      rw [hinv.mp hn] at h
      cases h
    simp [Order.update_status, hr]
  | deliver now h =>
    have hr : o.rider_username ≠ none := fun hn => by
      rw [hinv.mp hn] at h
      cases h
    simp [Order.update_status, hr]
  | cancel now h =>
    have hr : o.rider_username ≠ none := fun hn => by
      rw [hinv.mp hn] at h
      cases h
    simp [Order.update_status, hr]

/-! ## Claims -/

/-- C1: for every entity type and every valid entity value (one whose
derived fields carry their constructor values: a `User` name empty only
when the username is, an `OrderItem` subtotal equal to
`price * quantity`), deserializing the record produced by serializing it
yields an entity equal in all fields, including enum tags and
timestamps. -/
theorem C1_serialization_roundtrip :
    (∀ u : User, (u.name = "" → u.username = "") →
      User.from_dict u.to_dict = .ok u) ∧
    (∀ p : Product, Product.from_dict p.to_dict = .ok p) ∧
    (∀ it : OrderItem, it.subtotal = it.price * (it.quantity : ℚ) →
      OrderItem.from_dict it.to_dict = .ok it) ∧
    (∀ o : Order,
      (∀ it ∈ o.items, it.subtotal = it.price * (it.quantity : ℚ)) →
      Order.from_dict o.to_dict = .ok o) :=
  ⟨user_from_dict_to_dict, product_from_dict_to_dict,
    item_from_dict_to_dict, order_from_dict_to_dict⟩

/-- Witness for C1 at concrete entities of all four types. -/
theorem C1_serialization_roundtrip_witness :
    User.from_dict (User.create "bob" "pw1" .USER "Bob" 5).to_dict =
      .ok (User.create "bob" "pw1" .USER "Bob" 5) ∧
    Product.from_dict
        (⟨"P001", "Water Bottle", 2, 10, "Beverages"⟩ : Product).to_dict =
      .ok ⟨"P001", "Water Bottle", 2, 10, "Beverages"⟩ ∧
    OrderItem.from_dict (OrderItem.create "P001" "Water Bottle" 2 3).to_dict =
      .ok (OrderItem.create "P001" "Water Bottle" 2 3) ∧
    Order.from_dict (Order.create "O1" "bob"
        [OrderItem.create "P001" "Water Bottle" 2 3] "12 Main St" 7 8).to_dict =
      .ok (Order.create "O1" "bob"
        [OrderItem.create "P001" "Water Bottle" 2 3] "12 Main St" 7 8) :=
  ⟨C1_serialization_roundtrip.1 _ (by decide),
   C1_serialization_roundtrip.2.1 _,
   C1_serialization_roundtrip.2.2.1 _ rfl,
   C1_serialization_roundtrip.2.2.2 _ (by
    intro it hit
    rw [show (Order.create "O1" "bob"
        [OrderItem.create "P001" "Water Bottle" 2 3] "12 Main St" 7 8).items =
        [OrderItem.create "P001" "Water Bottle" 2 3] from rfl,
      List.mem_singleton] at hit
    subst hit
    rfl)⟩

/-- C3: an `OrderItem`'s subtotal is `unit_price × quantity` at
construction and an `Order`'s `total_amount` is the sum of its items'
subtotals at construction; `assign_rider` and `update_status` leave both
the total and the items untouched, and product mutations
(`add_product`, `update_product_stock`) do not touch the orders
collection at all. -/
theorem C3_totals_fixed_at_construction :
    (∀ (pid pname : String) (price : ℚ) (qty : ℤ),
      (OrderItem.create pid pname price qty).subtotal = price * (qty : ℚ)) ∧
    (∀ (oid cust : String) (items : List OrderItem) (addr : String)
      (t1 t2 : ℕ),
      (Order.create oid cust items addr t1 t2).total_amount =
        (items.map OrderItem.subtotal).sum) ∧
    (∀ (o : Order) (r : String) (t : ℕ),
      (o.assign_rider r t).total_amount = o.total_amount ∧
      (o.assign_rider r t).items = o.items) ∧
    (∀ (o : Order) (ns : OrderStatus) (t : ℕ),
      (o.update_status ns t).total_amount = o.total_amount ∧
      (o.update_status ns t).items = o.items) ∧
    (∀ (s : Store) (p : Product), (addProduct s p).orders = s.orders) ∧
    (∀ (s : Store) (pid : String) (n : ℤ),
      (updateProductStock s pid n).orders = s.orders) := by
  refine ⟨fun _ _ _ _ => rfl, fun _ _ _ _ _ _ => rfl,
    fun _ _ _ => ⟨rfl, rfl⟩, fun _ _ _ => ⟨rfl, rfl⟩,
    fun _ _ => rfl, fun s pid n => ?_⟩
  rw [updateProductStock]
  split <;> rfl

/-- C4 counterexample: applying `update_status IN_PROGRESS` — one of the
claim's order operations — to a newly created order yields an order with
no rider and a non-pending status, so "rider unset iff pending" is not
preserved by every operation. -/
theorem C4_counterexample :
    ¬ ((((Order.create "O1" "alice" [] "5 Main St" 0 0).update_status
          .IN_PROGRESS 1).rider_username = none) ↔
        (((Order.create "O1" "alice" [] "5 Main St" 0 0).update_status
          .IN_PROGRESS 1).status = .PENDING)) := by decide

/-- C4 (amended): `rider_username` is unset iff status is `pending` for
every order reachable from a newly created order through the lifecycle
operations as the application guards them (`assign_rider` only on
pending orders, `update_status` only assigned→in_progress and
in_progress→delivered/cancelled); unrestricted `update_status` does not
preserve the invariant. -/
theorem C4_rider_iff_pending_app_reachable (oid cust : String)
    (items : List OrderItem) (addr : String) (t1 t2 : ℕ) (o : Order)
    (h : AppReachable (Order.create oid cust items addr t1 t2) o) :
    o.rider_username = none ↔ o.status = .PENDING := by
  induction h with
  | refl => simp [Order.create]
  | tail hsteps hstep ih => exact appStep_preserves_inv hstep ih

/-- Witness for C4 (amended): a fresh order accepted by a rider. -/
theorem C4_rider_iff_pending_app_reachable_witness :
    ((Order.create "O1" "alice" [] "5 Main St" 0 0).assign_rider "r1" 2).rider_username = none ↔
    ((Order.create "O1" "alice" [] "5 Main St" 0 0).assign_rider "r1" 2).status = .PENDING :=
  C4_rider_iff_pending_app_reachable "O1" "alice" [] "5 Main St" 0 0 _
    (Relation.ReflTransGen.single
      (AppStep.accept (Order.create "O1" "alice" [] "5 Main St" 0 0) "r1" 2
        (by decide)))

/-- C5 counterexample: serializing a customer-role user writes the tag
`"user"`, which is none of the claim's three tags, and deserialization
rejects the claimed tag `"customer"`. -/
theorem C5_counterexample :
    (User.create "carol" "pw" .USER "Carol" 3).to_dict.role = some "user" ∧
    ¬("user" = "admin" ∨ "user" = "customer" ∨ "user" = "rider") ∧
    parseRole "customer" = .error (.valueError "customer") := by decide

/-- C5 (amended): the three role variants' canonical serialized tags are
`"admin"`, `"user"` and `"rider"` (the customer variant is `USER` with
tag `"user"`, not `"customer"`); serialization writes exactly one of
these three tags and deserialization accepts exactly these three. -/
theorem C5_role_tags :
    (∀ r : UserRole,
      roleValue r = "admin" ∨ roleValue r = "user" ∨ roleValue r = "rider") ∧
    (∀ u : User, u.to_dict.role = some (roleValue u.role)) ∧
    (∀ t : String,
      (∃ r, parseRole t = .ok r) ↔
        (t = "admin" ∨ t = "user" ∨ t = "rider")) := by
  refine ⟨fun r => ?_, fun u => rfl, fun t => ⟨?_, ?_⟩⟩
  · cases r <;> simp [roleValue]
  · rintro ⟨r, hr⟩
    have ht := parseRole_eq_ok hr
    subst ht
    cases r <;> simp [roleValue]
  · rintro (rfl | rfl | rfl)
    exacts [⟨.ADMIN, by decide⟩, ⟨.USER, by decide⟩, ⟨.RIDER, by decide⟩]

/-- Witness for C5 (amended) at the concrete tag `"rider"`. -/
theorem C5_role_tags_witness :
    "rider" = "admin" ∨ "rider" = "user" ∨ "rider" = "rider" :=
  (C5_role_tags.2.2 "rider").mp ⟨.RIDER, by decide⟩

/-- C8 counterexample: a backing file whose content is valid JSON but
not a three-collection document — here the JSON array `[]` — is
returned by `load()` as-is and does not become three empty collections,
since only `json.JSONDecodeError` / `FileNotFoundError` trigger the
fallback; this refutes the claim's (and the spec scenario's) "invalid
JSON/structure → three empty collections". -/
theorem C8_counterexample :
    loadData (.parsed (.arr [])) = .arr [] ∧ JValue.arr [] ≠ emptyDoc :=
  ⟨rfl, by intro h; cases h⟩

/-- C8 (amended): `load()` raises nothing and returns the parsed JSON
value as-is whenever the file exists and its content is valid JSON,
even when that value is not a three-collection document; it returns
exactly the empty three-collection document
`{"users": {}, "products": {}, "orders": {}}` only when the file is
missing or `json.load` rejects the content. -/
theorem C8_load_semantics :
    loadData .missing = emptyDoc ∧
    loadData .unparseable = emptyDoc ∧
    (∀ v : JValue, loadData (.parsed v) = v) ∧
    emptyDoc = .obj [("users", .obj []), ("products", .obj []),
      ("orders", .obj [])] :=
  ⟨rfl, rfl, fun _ => rfl, rfl⟩

/-- The store of C2's failing scenario: one product `P001` with stock
10. -/
def bugStore : Store :=
  addProduct emptyStore ⟨"P001", "Water Bottle", 2, 10, "Beverages"⟩

/-- The line item the cart loop builds for `P001`, quantity 7. -/
def bugItem : OrderItem := OrderItem.create "P001" "Water Bottle" 2 7

/-- C2: evaluation of the order-placement code at the failing input.
Against stock 10, the cart-building loop accepts the same product twice
with quantity 7 each (each request individually passes the
`quantity ≤ stock` check, since the store is not touched while the cart
is built), and committing the placement then drives the stored stock to
−4 — the placement is neither rejected nor does it keep stock
non-negative, refuting the claim's guarantee. -/
theorem C2_duplicate_item_drives_stock_negative :
    cartAdd bugStore [] "P001" 7 = .ok [bugItem] ∧
    cartAdd bugStore [bugItem] "P001" 7 = .ok [bugItem, bugItem] ∧
    (placeOrder bugStore [bugItem, bugItem] "ORD20240101000000" "alice"
        "12 Main St" 9 9).map
      (fun s => (alookup s.products "P001").map ProductRecord.stock) =
      .ok (some (some (-4))) :=
  ⟨rfl, rfl, rfl⟩

/-- C6: deserialization of every entity type fails whenever a required
key is absent or an enumerated field holds an unrecognized tag, and a
successful deserialization implies every required key was present and
the enumerated tag was a recognized one (`rider_username` and the
serialized `subtotal` are not required keys: `.get` tolerates the
former's absence and the latter is never read back). -/
theorem C6_malformed_records :
    (∀ (d : UserRecord) (u : User), User.from_dict d = .ok u →
      d.username.isSome ∧ d.password.isSome ∧ d.role.isSome ∧
      d.name.isSome ∧ d.created_at.isSome ∧
      ∃ t, d.role = some t ∧ (t = "admin" ∨ t = "user" ∨ t = "rider")) ∧
    (∀ d : UserRecord,
      (d.username = none ∨ d.password = none ∨ d.role = none ∨
        d.name = none ∨ d.created_at = none) →
      ∀ u, User.from_dict d ≠ .ok u) ∧
    (∀ (d : UserRecord) (t : String), d.role = some t →
      ¬(t = "admin" ∨ t = "user" ∨ t = "rider") →
      ∀ u, User.from_dict d ≠ .ok u) ∧
    (∀ (d : ProductRecord) (p : Product), Product.from_dict d = .ok p →
      d.product_id.isSome ∧ d.name.isSome ∧ d.price.isSome ∧
      d.stock.isSome ∧ d.category.isSome) ∧
    (∀ d : ProductRecord,
      (d.product_id = none ∨ d.name = none ∨ d.price = none ∨
        d.stock = none ∨ d.category = none) →
      ∀ p, Product.from_dict d ≠ .ok p) ∧
    (∀ (d : OrderItemRecord) (it : OrderItem),
      OrderItem.from_dict d = .ok it →
      d.product_id.isSome ∧ d.product_name.isSome ∧ d.price.isSome ∧
      d.quantity.isSome) ∧
    (∀ d : OrderItemRecord,
      (d.product_id = none ∨ d.product_name = none ∨ d.price = none ∨
        d.quantity = none) →
      ∀ it, OrderItem.from_dict d ≠ .ok it) ∧
    (∀ (d : OrderRecord) (o : Order), Order.from_dict d = .ok o →
      d.order_id.isSome ∧ d.customer_username.isSome ∧ d.items.isSome ∧
      d.delivery_address.isSome ∧ d.total_amount.isSome ∧
      d.status.isSome ∧ d.created_at.isSome ∧ d.updated_at.isSome ∧
      ∃ t, d.status = some t ∧
        (t = "pending" ∨ t = "assigned" ∨ t = "in_progress" ∨
          t = "delivered" ∨ t = "cancelled")) ∧
    (∀ d : OrderRecord,
      (d.order_id = none ∨ d.customer_username = none ∨ d.items = none ∨
        d.delivery_address = none ∨ d.total_amount = none ∨
        d.status = none ∨ d.created_at = none ∨ d.updated_at = none) →
      ∀ o, Order.from_dict d ≠ .ok o) ∧
    (∀ (d : OrderRecord) (t : String), d.status = some t →
      ¬(t = "pending" ∨ t = "assigned" ∨ t = "in_progress" ∨
        t = "delivered" ∨ t = "cancelled") →
      ∀ o, Order.from_dict d ≠ .ok o) := by
  refine ⟨?_, ?_, ?_, ?_, ?_, ?_, ?_, ?_, ?_, ?_⟩
  · intro d u h
    obtain ⟨e1, e2, e3, e4, e5⟩ := user_from_dict_ok_inv h
    refine ⟨by simp [e1], by simp [e2], by simp [e3], e4, e5,
      roleValue u.role, e3, ?_⟩
    cases u.role <;> simp [roleValue]
  · intro d hbad u h
    obtain ⟨e1, e2, e3, e4, e5⟩ := user_from_dict_ok_inv h
    rcases hbad with hb | hb | hb | hb | hb <;> simp_all
  · intro d t ht hnot u h
    have e3 := (user_from_dict_ok_inv h).2.2.1
    rw [ht] at e3
    cases e3
    exact hnot (by cases u.role <;> simp [roleValue])
  · intro d p h
    obtain ⟨e1, e2, e3, e4, e5⟩ := product_from_dict_ok_inv h
    exact ⟨by simp [e1], by simp [e2], by simp [e3], by simp [e4],
      by simp [e5]⟩
  · intro d hbad p h
    obtain ⟨e1, e2, e3, e4, e5⟩ := product_from_dict_ok_inv h
    rcases hbad with hb | hb | hb | hb | hb <;> simp_all
  · intro d it h
    obtain ⟨e1, e2, e3, e4⟩ := item_from_dict_ok_inv h
    exact ⟨by simp [e1], by simp [e2], by simp [e3], by simp [e4]⟩
  · intro d hbad it h
    obtain ⟨e1, e2, e3, e4⟩ := item_from_dict_ok_inv h
    rcases hbad with hb | hb | hb | hb <;> simp_all
  · intro d o h
    obtain ⟨e1, e2, ⟨rs, ei, _⟩, e4, e5, e6, e7, e8, e9⟩ :=
      order_from_dict_ok_inv h
    refine ⟨by simp [e1], by simp [e2], by simp [ei], by simp [e4],
      by simp [e5], by simp [e6], e8, e9, statusValue o.status, e6, ?_⟩
    cases o.status <;> simp [statusValue]
  · intro d hbad o h
    obtain ⟨e1, e2, ⟨rs, ei, _⟩, e4, e5, e6, e7, e8, e9⟩ :=
      order_from_dict_ok_inv h
    rcases hbad with hb | hb | hb | hb | hb | hb | hb | hb <;> simp_all
  · intro d t ht hnot o h
    have e6 := (order_from_dict_ok_inv h).2.2.2.2.2.1
    rw [ht] at e6
    cases e6
    exact hnot (by cases o.status <;> simp [statusValue])

/-- Witness for C6: a record with a present key, a missing-key failure,
a bad-tag failure, and an order-record failure, each at a concrete
record. -/
theorem C6_malformed_records_witness :
    (⟨some "bob", some "pw", some "user", some "Bob", some "42"⟩ :
      UserRecord).username.isSome ∧
    User.from_dict ⟨none, some "pw", some "user", some "Bob", some "42"⟩ ≠
      .ok (User.create "bob" "pw" .USER "Bob" 42) ∧
    User.from_dict ⟨some "bob", some "pw", some "wizard", some "Bob",
        some "42"⟩ ≠ .ok (User.create "bob" "pw" .USER "Bob" 42) ∧
    (⟨some "P1", some "Water", some 2, some 10, some "General"⟩ :
      ProductRecord).product_id.isSome ∧
    Product.from_dict ⟨some "P1", some "Water", some 2, none,
        some "General"⟩ ≠ .ok ⟨"P1", "Water", 2, 10, "General"⟩ ∧
    (⟨some "P1", some "Water", some 2, some 3, some 6⟩ :
      OrderItemRecord).quantity.isSome ∧
    OrderItem.from_dict ⟨some "P1", none, some 2, some 3, some 6⟩ ≠
      .ok (OrderItem.create "P1" "Water" 2 3) ∧
    (⟨some "O1", some "bob", some [], some "addr", some 0, some "pending",
        none, some "1", some "1"⟩ : OrderRecord).status.isSome ∧
    Order.from_dict ⟨some "O1", some "bob", some [], some "addr", some 0,
        none, none, some "1", some "1"⟩ ≠
      .ok (Order.create "O1" "bob" [] "addr" 1 1) ∧
    Order.from_dict ⟨some "O1", some "bob", some [], some "addr", some 0,
        some "shipped", none, some "1", some "1"⟩ ≠
      .ok (Order.create "O1" "bob" [] "addr" 1 1) :=
  ⟨(C6_malformed_records.1 _ (User.create "bob" "pw" .USER "Bob" 42)
      (by decide)).1,
   C6_malformed_records.2.1 _ (by decide) _,
   C6_malformed_records.2.2.1 _ "wizard" (by decide) (by decide) _,
   (C6_malformed_records.2.2.2.1
      ⟨some "P1", some "Water", some 2, some 10, some "General"⟩
      (⟨"P1", "Water", 2, 10, "General"⟩ : Product) rfl).1,
   C6_malformed_records.2.2.2.2.1 _ (by decide) _,
   (C6_malformed_records.2.2.2.2.2.1
      ⟨some "P1", some "Water", some 2, some 3, some 6⟩
      (OrderItem.create "P1" "Water" 2 3) rfl).2.2.2,
   C6_malformed_records.2.2.2.2.2.2.1 _ (by decide) _,
   (C6_malformed_records.2.2.2.2.2.2.2.1
      ⟨some "O1", some "bob", some [], some "addr", some 0, some "pending",
        none, some "1", some "1"⟩
      (Order.create "O1" "bob" [] "addr" 1 1) rfl).2.2.2.2.2.1,
   C6_malformed_records.2.2.2.2.2.2.2.2.1 _ (by decide) _,
   C6_malformed_records.2.2.2.2.2.2.2.2.2 _ "shipped" (by decide)
      (by decide) _⟩

/-- C7 counterexample: an order record that is well-formed except that
its `items` key is absent is rejected with a `KeyError` (the missing-key
failure the spec calls `MalformedRecordError`), not accepted. -/
theorem C7_counterexample :
    Order.from_dict ⟨some "O1", some "bob", none, some "12 Main St",
        some 5, some "pending", none, some "0", some "0"⟩ =
      .error (.keyError "items") := rfl

/-- C7 (amended): order deserialization reconstructs `items` by
deserializing each line-item record independently and accepts an empty
items list as-is, yielding an order with an empty items sequence; a
record whose `items` key is missing, however, fails like any other
missing required key. -/
theorem C7_items_deserialization :
    (∀ (d : OrderRecord) (rs : List OrderItemRecord) (o : Order),
      d.items = some rs → Order.from_dict d = .ok o →
      rs.mapM OrderItem.from_dict = .ok o.items) ∧
    (∀ (d : OrderRecord) (o : Order), d.items = some [] →
      Order.from_dict d = .ok o → o.items = []) ∧
    (∀ d : OrderRecord, d.items = none →
      ∀ o, Order.from_dict d ≠ .ok o) ∧
    (Order.from_dict ⟨some "O2", some "bob", some [], some "12 Main St",
        some 0, some "pending", none, some "1", some "1"⟩ =
      .ok (Order.create "O2" "bob" [] "12 Main St" 1 1)) := by
  have hmain : ∀ (d : OrderRecord) (rs : List OrderItemRecord) (o : Order),
      d.items = some rs → Order.from_dict d = .ok o →
      rs.mapM OrderItem.from_dict = .ok o.items := by
    intro d rs o hrs h
    obtain ⟨rs', hrs', hmap⟩ := (order_from_dict_ok_inv h).2.2.1
    rw [hrs] at hrs'
    cases hrs'
    exact hmap
  refine ⟨hmain, ?_, ?_, rfl⟩
  · intro d o hrs h
    have := hmain d [] o hrs h
    rw [List.mapM_nil, pureOk] at this
    exact (Except.ok.inj this).symm
  · intro d hnone o h
    obtain ⟨rs', hrs', _⟩ := (order_from_dict_ok_inv h).2.2.1
    rw [hnone] at hrs'
    cases hrs'

/-- Witness for C7 (amended): the empty-items record of the theorem's
last conjunct yields an order with an empty items sequence, and a
missing-items record is rejected. -/
theorem C7_items_deserialization_witness :
    (Order.create "O2" "bob" [] "12 Main St" 1 1).items =
      ([] : List OrderItem) ∧
    Order.from_dict ⟨some "O3", some "bob", none, some "12 Main St",
        some 0, some "pending", none, some "1", some "1"⟩ ≠
      .ok (Order.create "O3" "bob" [] "12 Main St" 1 1) :=
  ⟨C7_items_deserialization.2.1
      ⟨some "O2", some "bob", some [], some "12 Main St", some 0,
        some "pending", none, some "1", some "1"⟩
      (Order.create "O2" "bob" [] "12 Main St" 1 1) rfl rfl,
   C7_items_deserialization.2.2.1
      ⟨some "O3", some "bob", none, some "12 Main St", some 0,
        some "pending", none, some "1", some "1"⟩ rfl
      (Order.create "O3" "bob" [] "12 Main St" 1 1)⟩

/-- C9: whenever the full scan of the orders collection deserializes to
the list `l` (in insertion order), the pending-orders query returns
exactly the orders in `l` whose status is pending, in the same order —
every pending order appears, no non-pending order does. -/
theorem C9_pending_orders (s : Store) (l : List Order)
    (h : getAllOrders s = .ok l) :
    getPendingOrders s =
      .ok (l.filter fun o => decide (o.status = .PENDING)) :=
  pendingOrdersAux_eq h

/-- Witness for C9 on a two-order store (one pending, one assigned). -/
theorem C9_pending_orders_witness :
    getPendingOrders ⟨[], [],
      [("O1", ⟨some "O1", some "bob", some [], some "addr1", some 0,
          some "pending", none, some "1", some "1"⟩),
       ("O2", ⟨some "O2", some "bob", some [], some "addr2", some 0,
          some "assigned", some "r1", some "2", some "3"⟩)]⟩ =
      .ok [Order.create "O1" "bob" [] "addr1" 1 1] := by
  have h := C9_pending_orders ⟨[], [],
      [("O1", ⟨some "O1", some "bob", some [], some "addr1", some 0,
          some "pending", none, some "1", some "1"⟩),
       ("O2", ⟨some "O2", some "bob", some [], some "addr2", some 0,
          some "assigned", some "r1", some "2", some "3"⟩)]⟩
      [Order.create "O1" "bob" [] "addr1" 1 1,
       { Order.create "O2" "bob" [] "addr2" 2 3 with
          status := .ASSIGNED, rider_username := some "r1" }] rfl
  exact h.trans rfl

/-- C10: every mutating store operation touches only its own collection
and only the entry under the given key: `add_user`, `add_product`,
`add_order` and `update_order` upsert exactly one key of one collection
(and `update_order` is the same operation as `add_order`), while
`update_product_stock` rewrites only the `stock` key of the record under
the given product id and is a no-op when the id is absent. -/
theorem C10_frame_effects :
    (∀ (s : Store) (u : User),
      (addUser s u).products = s.products ∧
      (addUser s u).orders = s.orders ∧
      alookup (addUser s u).users u.username = some u.to_dict ∧
      ∀ k, k ≠ u.username →
        alookup (addUser s u).users k = alookup s.users k) ∧
    (∀ (s : Store) (p : Product),
      (addProduct s p).users = s.users ∧
      (addProduct s p).orders = s.orders ∧
      alookup (addProduct s p).products p.product_id = some p.to_dict ∧
      ∀ k, k ≠ p.product_id →
        alookup (addProduct s p).products k = alookup s.products k) ∧
    (∀ (s : Store) (pid : String) (n : ℤ),
      (updateProductStock s pid n).users = s.users ∧
      (updateProductStock s pid n).orders = s.orders ∧
      (∀ k, k ≠ pid →
        alookup (updateProductStock s pid n).products k =
          alookup s.products k) ∧
      (∀ r, alookup s.products pid = some r →
        alookup (updateProductStock s pid n).products pid =
          some { r with stock := some n }) ∧
      (alookup s.products pid = none → updateProductStock s pid n = s)) ∧
    (∀ (s : Store) (o : Order),
      (addOrder s o).users = s.users ∧
      (addOrder s o).products = s.products ∧
      alookup (addOrder s o).orders o.order_id = some o.to_dict ∧
      ∀ k, k ≠ o.order_id →
        alookup (addOrder s o).orders k = alookup s.orders k) ∧
    (∀ (s : Store) (o : Order), updateOrder s o = addOrder s o) := by
  refine ⟨fun s u => ⟨rfl, rfl, alookup_upsert_self s.users u.username _,
      fun k hk => alookup_upsert_ne s.users u.username k _ hk⟩,
    fun s p => ⟨rfl, rfl, alookup_upsert_self s.products p.product_id _,
      fun k hk => alookup_upsert_ne s.products p.product_id k _ hk⟩,
    fun s pid n => ⟨?_, ?_, ?_, ?_, ?_⟩,
    fun s o => ⟨rfl, rfl, alookup_upsert_self s.orders o.order_id _,
      fun k hk => alookup_upsert_ne s.orders o.order_id k _ hk⟩,
    fun s o => rfl⟩
  · rw [updateProductStock]; split <;> rfl
  · rw [updateProductStock]; split <;> rfl
  · intro k hk
    rw [updateProductStock]
    split
    · exact alookup_setStock_ne s.products pid k n hk
    · rfl
  · intro r hr
    rw [updateProductStock,
      if_pos (by rw [containsKey, hr]; rfl)]
    exact alookup_setStock_self s.products pid n hr
  · intro hr
    rw [updateProductStock, if_neg (by rw [containsKey, hr]; exact
      Bool.false_ne_true)]

/-- Witness for C10 at concrete stores: a key distinct from the upserted
one is untouched, updating stock of a present product rewrites only its
`stock` key, and updating an absent product id is a no-op. -/
theorem C10_frame_effects_witness :
    alookup (addUser emptyStore (User.create "bob" "pw" .USER "Bob" 1)).users
        "alice" = alookup emptyStore.users "alice" ∧
    alookup (updateProductStock
        (addProduct emptyStore ⟨"P1", "Water", 2, 10, "General"⟩)
        "P1" 5).products "P1" =
      some ⟨some "P1", some "Water", some 2, some 5, some "General"⟩ ∧
    updateProductStock emptyStore "P9" 5 = emptyStore :=
  ⟨(C10_frame_effects.1 emptyStore (User.create "bob" "pw" .USER "Bob" 1)).2.2.2
      "alice" (by decide),
   (C10_frame_effects.2.2.1
        (addProduct emptyStore ⟨"P1", "Water", 2, 10, "General"⟩)
        "P1" 5).2.2.2.1
      ⟨some "P1", some "Water", some 2, some 10, some "General"⟩ rfl,
   (C10_frame_effects.2.2.1 emptyStore "P9" 5).2.2.2.2 rfl⟩

end QuickCart
